import Mathlib

/-!
Verification development for the client-side GENA (UPnP eventing) subsystem
of npupnp (gena_ctrlpt.cpp).  The C++ functions are shallowly embedded as
pure Lean functions: the subscription table becomes an explicit
`Handle_Info` value threaded through each operation, the network and the
timer thread become explicit outcome parameters, and the inbound NOTIFY
handler becomes a function from a transaction snapshot to the HTTP status
it answers plus the optional user upcall it makes.
-/

namespace NpupnpGena

/-! ### Error and status constants (from upnp.h / statcodes.h of the library) -/

def UPNP_E_SUCCESS : Int := 0
def GENA_SUCCESS : Int := 0
/-- GENA_E_BAD_HANDLE is UPNP_E_INVALID_HANDLE. -/
def GENA_E_BAD_HANDLE : Int := -100
/-- GENA_E_BAD_SID is UPNP_E_INVALID_SID. -/
def GENA_E_BAD_SID : Int := -109
def UPNP_E_BAD_RESPONSE : Int := -113
def UPNP_E_SOCKET_CONNECT : Int := -204
def UPNP_E_SUBSCRIBE_UNACCEPTED : Int := -301
def UPNP_E_UNSUBSCRIBE_UNACCEPTED : Int := -302
/-- The "infinite" timeout sentinel (UPNP_INFINITE). -/
def UPNP_INFINITE : Int := -1
def HTTP_OK : Nat := 200
def HTTP_BAD_REQUEST : Nat := 400
def HTTP_PRECONDITION_FAILED : Nat := 412

/-! ### Small helpers shared by the embedding -/

/-- Lookup in a header map (keys are stored lowercased by the HTTP layer,
as in `mhdt->headers` / the curl header callback), first match. -/
def hget (h : List (String × String)) (k : String) : Option String :=
  (h.find? (fun p => p.1 == k)).map (fun p => p.2)

/-- `operator[]` assignment on a string-keyed map represented as an
association list with unique keys: replace the binding if present,
else append a fresh one. -/
def mapSet (m : List (String × String)) (k v : String) : List (String × String) :=
  match m with
  | [] => [(k, v)]
  | (k', v') :: rest =>
    if k' = k then (k, v) :: rest else (k', v') :: mapSet rest k v

/-- Map lookup (first match; keys are unique in maps built by `mapSet`). -/
def mapGet : List (String × String) → String → Option String
  | [], _ => none
  | (k', v) :: rest, k => if k' = k then some v else mapGet rest k

/-- Value attached to the LAST pair with key `k`, if any (last-wins view
of a pair list). -/
def lastAssoc (l : List (String × String)) (k : String) : Option String :=
  match l with
  | [] => none
  | (k', v) :: rest =>
    match lastAssoc rest k with
    | some v' => some v'
    | none => if k' = k then some v else none

/-- C whitespace, as skipped by `sscanf` conversions. -/
def isCSpace (c : Char) : Bool :=
  c = ' ' || c = '\t' || c = '\n' || c = '\r' || c = '\x0b' || c = '\x0c'

/-- Numeric value of a digit list (most significant first). -/
def digitsVal (l : List Char) : Int :=
  l.foldl (fun a c => a * 10 + (Int.ofNat (c.toNat - 48))) 0

/-- The SEQ scan of `gena_process_notification_event`:
`sscanf(s, "%d%1c", &eventKey, cb) != 1` rejects the header.  The scan
returns exactly 1 when `%d` matches (optional leading C whitespace, an
optional sign, at least one digit) and the input ends there, so that the
`%1c` conversion finds no character. -/
def scanSeqInt (s : String) : Option Int :=
  let l := s.toList.dropWhile isCSpace
  let signed : Int × List Char :=
    match l with
    | '-' :: rest => (-1, rest)
    | '+' :: rest => (1, rest)
    | _ => (1, l)
  let ds := signed.2.takeWhile (fun c => c.isDigit)
  let rest := signed.2.dropWhile (fun c => c.isDigit)
  if ds.isEmpty then none
  else if rest.isEmpty then some (signed.1 * digitsVal ds) else none

/-- `trimstring(s, " \t\n\r")`: strip those characters from both ends. -/
def isTrimChar (c : Char) : Bool :=
  c = ' ' || c = '\t' || c = '\n' || c = '\r'

/-- Leading/trailing whitespace trim, as `trimstring` with set " \t\n\r". -/
def trimWs (s : String) : String :=
  String.mk (((s.toList.dropWhile isTrimChar).reverse.dropWhile isTrimChar).reverse)

/-- Local part of an XML tag name: everything after the first colon, the
whole name when there is none. -/
def localPart (s : String) : String :=
  match s.toList.dropWhile (fun c => c ≠ ':') with
  | [] => s
  | _ :: t => String.mk t

/-- Modelled from the spec: `dom_cmp_name` (genut, not under src/) compares
element names with the namespace prefix ignored and case-insensitively;
this is the corresponding equality predicate (the source function returns
0 exactly on a match, strcmp-style). -/
def dom_cmp_name_eq (a b : String) : Bool :=
  (localPart a).toList.map Char.toLower == (localPart b).toList.map Char.toLower

/-! ### Data model -/

/-- A client subscription table entry.  `renewEventId = -1` is the
"none" value (no renewal timer recorded). -/
structure ClientSubscription where
  SID : String
  eventURL : String
  renewEventId : Int
deriving DecidableEq, Repr

/-- The per-handle state the GENA client code reads and writes: the
subscription list of a client handle (`Handle_Info::ClientSubList`). -/
structure Handle_Info where
  ClientSubList : List ClientSubscription
deriving DecidableEq, Repr

/-- `std::find_if` by SID over a subscription list: first match. -/
def findBySid : List ClientSubscription → String → Option ClientSubscription
  | [], _ => none
  | e :: rest, sid => if e.SID = sid then some e else findBySid rest sid

/-- In-place mutation through the iterator returned by `std::find_if`:
update the first entry whose SID matches, leave the rest alone. -/
def updateFirstBySid (l : List ClientSubscription) (sid : String)
    (f : ClientSubscription → ClientSubscription) : List ClientSubscription :=
  match l with
  | [] => []
  | e :: rest =>
    if e.SID = sid then f e :: rest else e :: updateFirstBySid rest sid f

/-- `remove_if` by SID: drop every entry whose SID matches. -/
def removeBySid : List ClientSubscription → String → List ClientSubscription
  | [], _ => []
  | e :: rest, sid =>
    if e.SID = sid then removeBySid rest sid else e :: removeBySid rest sid

/-! ### HTTP transport adapter (`gena_subscribe`, lines 304-422) -/

/-- Outcome of the curl round-trip: either a transport failure
(`curl_easy_perform != CURLE_OK`) or an HTTP status together with the
response headers collected by the header callback (names lowercased). -/
inductive CurlOutcome where
  | fail
  | ok (status : Int) (headers : List (String × String))
deriving DecidableEq, Repr

/-- Result of `gena_subscribe`: the return code, the out-parameter `*sid`
(cleared on entry, so empty on every error path) and the in/out
`*timeout` value. -/
structure GenaSubResult where
  code : Int
  sid : String
  timeout : Int
deriving DecidableEq, Repr

/-- The request-timeout token written after `TIMEOUT: Second-` (source
lines 323-330): "infinite" for a negative request, the configured
minimum `CP_MINIMUM_SUBSCRIPTION_TIME` (passed here as `minSub`) when
the request is below it, the request itself otherwise. -/
def subTimeoutToken (minSub t : Int) : String :=
  if t < 0 then "infinite"
  else if t < minSub then toString minSub
  else toString t

/-- The outbound SUBSCRIBE header list built by the successive
`curl_slist_append` calls (source lines 366-385), as (name, value)
pairs; `cbUrl` abstracts `myCallbackUrl(myaddr)` and `ua` the
`get_sdk_client_info()` string.  A null `timeout` argument is replaced
by a local equal to the configured minimum (lines 315-322). -/
def gena_subscribe_headers (minSub : Int) (timeout : Option Int)
    (renewal_sid cbUrl ua : String) : List (String × String) :=
  let t := match timeout with
    | none => minSub
    | some v => v
  (if renewal_sid = "" then
      [("CALLBACK", "<" ++ cbUrl ++ "/>"), ("NT", "upnp:event")]
   else
      [("SID", renewal_sid)])
  ++ [("TIMEOUT", "Second-" ++ subTimeoutToken minSub t), ("USER-AGENT", ua)]

/-- Modelled from the spec: `timeout_header_value` (httputils, not under
src/) parses the granted `TIMEOUT: Second-<N|infinite>` response header
into the integer seconds, or the UPNP_INFINITE sentinel for
"Second-infinite"; anything else fails. -/
def timeout_header_value (headers : List (String × String)) : Option Int :=
  match hget headers "timeout" with
  | none => none
  | some v =>
    if v = "Second-infinite" then some UPNP_INFINITE
    else if "Second-".toList.isPrefixOf v.toList then
      let ds := v.toList.drop 7
      if !ds.isEmpty && ds.all (fun c => c.isDigit) then some (digitsVal ds)
      else none
    else none

/-- Response side of `gena_subscribe` (lines 332-421): `urlParseCode`
is the `http_FixStrUrl` result, `ifpFound` whether
`interfaceForAddress` located an interface for the destination, and
`curl` the round-trip outcome.  On success the out parameters receive
the server SID and the parsed TIMEOUT seconds. -/
def gena_subscribe (reqTimeout : Int) (urlParseCode : Int) (ifpFound : Bool)
    (curl : CurlOutcome) : GenaSubResult :=
  if urlParseCode ≠ 0 then ⟨urlParseCode, "", reqTimeout⟩
  else if !ifpFound then ⟨UPNP_E_SOCKET_CONNECT, "", reqTimeout⟩
  else
    match curl with
    | .fail => ⟨UPNP_E_SOCKET_CONNECT, "", reqTimeout⟩
    | .ok status headers =>
      if status ≠ 200 then ⟨UPNP_E_SUBSCRIBE_UNACCEPTED, "", reqTimeout⟩
      else
        match hget headers "sid", hget headers "timeout" with
        | some sidv, some _ =>
          match timeout_header_value headers with
          | none => ⟨UPNP_E_BAD_RESPONSE, "", reqTimeout⟩
          | some t => ⟨UPNP_E_SUCCESS, sidv, t⟩
        | _, _ => ⟨UPNP_E_BAD_RESPONSE, "", reqTimeout⟩

/-! ### Renewal scheduler (`ScheduleGenaAutoRenew`, lines 168-204) -/

/-- `ScheduleGenaAutoRenew`: an infinite granted timeout returns success
without touching the timer or the subscription; otherwise the timer
thread's `schedule` outcome is `schedCode` (its return code) and
`eventId` (the id it assigned), and on success the id is recorded on the
subscription. -/
def ScheduleGenaAutoRenew (TimeOut : Int) (schedCode eventId : Int)
    (sub : ClientSubscription) : Int × ClientSubscription :=
  if TimeOut = UPNP_INFINITE then (GENA_SUCCESS, sub)
  else if schedCode ≠ UPNP_E_SUCCESS then (schedCode, sub)
  else (GENA_SUCCESS, { sub with renewEventId := eventId })

/-! ### Subscription manager -/

/-- `genaUnSubscribe` (lines 458-489) in a sequential state model:
`st` is the client handle state (`none` when `GetHandleInfo` does not
report `HND_CLIENT`).  The result of the network `gena_unsubscribe`
call is `netResult`; the source discards it, which the embedding keeps
visible by taking and ignoring the parameter.  Returns the GENA return
code and the state after the call. -/
def genaUnSubscribe (st : Option Handle_Info) (in_sid : String)
    (netResult : Int) : Int × Option Handle_Info :=
  match st with
  | none => (GENA_E_BAD_HANDLE, none)
  | some hi =>
    match findBySid hi.ClientSubList in_sid with
    | none => (GENA_E_BAD_SID, some hi)
    | some _ =>
      let _ := netResult
      (GENA_SUCCESS, some ⟨removeBySid hi.ClientSubList in_sid⟩)

/-- `genaSubscribe` (lines 492-547): validate the handle, run
`gena_subscribe` with an empty renewal SID, push the new subscription in
front of the list with `renewEventId = -1`, set the out SID, then try to
arm the renewal timer; the scheduler's code is returned but the
subscription is left in the table either way.  Result:
(return code, state, out_sid). -/
def genaSubscribe (st : Option Handle_Info) (PublisherURL : String)
    (reqTimeout urlParseCode : Int) (ifpFound : Bool) (curl : CurlOutcome)
    (schedCode eventId : Int) : Int × Option Handle_Info × String :=
  match st with
  | none => (GENA_E_BAD_HANDLE, none, "")
  | some hi =>
    let r := gena_subscribe reqTimeout urlParseCode ifpFound curl
    if r.code ≠ UPNP_E_SUCCESS then (r.code, some hi, "")
    else
      let newSub : ClientSubscription := ⟨r.sid, PublisherURL, -1⟩
      let sched := ScheduleGenaAutoRenew r.timeout schedCode eventId newSub
      (sched.1, some ⟨sched.2 :: hi.ClientSubList⟩, r.sid)

/-- `genaRenewSubscription` (lines 550-620) in the sequential state
model: locate the subscription, clear its timer id in place, run the
renewal `gena_subscribe`; on transport failure remove the entry and
propagate the code; on success store the (possibly new) SID and arm the
timer, removing the entry when scheduling fails.  Returns the code and
the state after the call. -/
def genaRenewSubscription (st : Option Handle_Info) (in_sid : String)
    (reqTimeout urlParseCode : Int) (ifpFound : Bool) (curl : CurlOutcome)
    (schedCode eventId : Int) : Int × Option Handle_Info :=
  match st with
  | none => (GENA_E_BAD_HANDLE, none)
  | some hi =>
    match findBySid hi.ClientSubList in_sid with
    | none => (GENA_E_BAD_SID, some hi)
    | some _ =>
      let l1 := updateFirstBySid hi.ClientSubList in_sid
        (fun e => { e with renewEventId := -1 })
      let r := gena_subscribe reqTimeout urlParseCode ifpFound curl
      if r.code ≠ UPNP_E_SUCCESS then
        (r.code, some ⟨removeBySid l1 in_sid⟩)
      else
        match findBySid l1 in_sid with
        | none => (GENA_E_BAD_SID, some ⟨l1⟩)
        | some sub0 =>
          let sub1 := { sub0 with SID := r.sid }
          let sched := ScheduleGenaAutoRenew r.timeout schedCode eventId sub1
          let l2 := updateFirstBySid l1 in_sid (fun _ => sched.2)
          if sched.1 ≠ GENA_SUCCESS then
            (sched.1, some ⟨removeBySid l2 sched.2.SID⟩)
          else (sched.1, some ⟨l2⟩)

/-! ### Auto-renew timer job (`AutoRenewSubscriptionJobWorker::work`,
lines 120-159) -/

inductive Upnp_EventType where
  | UPNP_EVENT_RECEIVED
  | UPNP_EVENT_AUTORENEWAL_FAILED
  | UPNP_EVENT_SUBSCRIPTION_EXPIRED
deriving DecidableEq, Repr

/-- What the fired timer job produced: the upcall it made, if any (event
type plus the `ErrCode` put in the event struct), and the state after
the embedded renewal call. -/
structure WorkResult where
  callback : Option (Upnp_EventType × Int)
  state : Option Handle_Info
deriving DecidableEq, Repr

/-- The timer job body.  `autoRenewTime` is the compile-time
AUTO_RENEW_TIME margin: zero means "no auto-renew", so the job emits a
SUBSCRIPTION_EXPIRED upcall with a success code; otherwise it runs
`genaRenewSubscription` and emits AUTORENEWAL_FAILED for any failure
code other than the two "already torn down" codes.  An upcall is only
delivered when `GetHandleInfo` still reports a client at callback time
(in this sequential model, when the state is present). -/
def AutoRenewSubscriptionJobWorker_work (autoRenewTime : Int)
    (st : Option Handle_Info) (sid : String) (timeout : Int)
    (urlParseCode : Int) (ifpFound : Bool) (curl : CurlOutcome)
    (schedCode eventId : Int) : WorkResult :=
  if autoRenewTime = 0 then
    match st with
    | none => ⟨none, none⟩
    | some _ => ⟨some (.UPNP_EVENT_SUBSCRIPTION_EXPIRED, UPNP_E_SUCCESS), st⟩
  else
    let r := genaRenewSubscription st sid timeout urlParseCode ifpFound curl
      schedCode eventId
    if r.1 ≠ UPNP_E_SUCCESS ∧ r.1 ≠ GENA_E_BAD_SID ∧ r.1 ≠ GENA_E_BAD_HANDLE then
      match r.2 with
      | none => ⟨none, none⟩
      | some _ => ⟨some (.UPNP_EVENT_AUTORENEWAL_FAILED, r.1), r.2⟩
    else ⟨none, r.2⟩

/-! ### Notification receiver (`gena_process_notification_event`,
lines 655-795) -/

/-- The `Upnp_Event` record handed to the user callback with
UPNP_EVENT_RECEIVED. -/
structure Upnp_Event where
  Sid : String
  EventKey : Int
  ChangedVariables : List (String × String)
deriving DecidableEq, Repr

/-- What the receiver did with one inbound NOTIFY transaction: the HTTP
status it answered and the event upcall it made, if any. -/
structure NotifyOutcome where
  response : Nat
  callback : Option Upnp_Event
deriving DecidableEq, Repr

/-- `gena_process_notification_event`.  `headers` and `postdata` are the
transaction's request headers (lowercased names) and body; `hasXmlCT`
is the (external) `has_xml_content_type` verdict; `parseResult` is the
property set produced by the XML parse, `none` on parse failure.
`st1` is the client-handle state at the first lookup, `st2` the state
observed after re-locking under SubscribeLock for the seq==0 retry
(`none` in either when `GetClientHandleInfo` does not find a client). -/
def gena_process_notification_event (headers : List (String × String))
    (postdata : String) (hasXmlCT : Bool)
    (parseResult : Option (List (String × String)))
    (st1 st2 : Option Handle_Info) : NotifyOutcome :=
  match hget headers "sid" with
  | none => ⟨HTTP_PRECONDITION_FAILED, none⟩
  | some sid =>
    match hget headers "seq" with
    | none => ⟨HTTP_BAD_REQUEST, none⟩
    | some seqv =>
      match scanSeqInt seqv with
      | none => ⟨HTTP_BAD_REQUEST, none⟩
      | some eventKey =>
        match hget headers "nt", hget headers "nts" with
        | some nt, some nts =>
          if nt ≠ "upnp:event" ∨ nts ≠ "upnp:propchange" then
            ⟨HTTP_PRECONDITION_FAILED, none⟩
          else if !hasXmlCT ∨ postdata = "" then ⟨HTTP_BAD_REQUEST, none⟩
          else
            match parseResult with
            | none => ⟨HTTP_BAD_REQUEST, none⟩
            | some propset =>
              match st1 with
              | none => ⟨HTTP_PRECONDITION_FAILED, none⟩
              | some hi =>
                match findBySid hi.ClientSubList sid with
                | some sub => ⟨HTTP_OK, some ⟨sub.SID, eventKey, propset⟩⟩
                | none =>
                  if eventKey = 0 then
                    match st2 with
                    | none => ⟨HTTP_PRECONDITION_FAILED, none⟩
                    | some hi2 =>
                      match findBySid hi2.ClientSubList sid with
                      | none => ⟨HTTP_PRECONDITION_FAILED, none⟩
                      | some sub2 => ⟨HTTP_OK, some ⟨sub2.SID, eventKey, propset⟩⟩
                  else ⟨HTTP_PRECONDITION_FAILED, none⟩
        | _, _ => ⟨HTTP_BAD_REQUEST, none⟩

/-! ### Property-set parser (`UPnPPropertysetParser`, lines 622-653)

The subclass handlers `EndElement` / `CharacterData` are in the source;
the underlying streaming tokenizer (picoxml / expat, not under src/) is
modelled from the spec as a stream of start / character-data / end
events.  Per the spec, namespace prefixes are ignored ("Namespace
prefixes are ignored"), so the modelled tokenizer delivers element
local-names, and `m_path` holds the open elements with the current one
on top when `EndElement` runs (the handler reads the parent at
`m_path.size()-2` and treats size 1 as the root closing). -/

inductive XmlEv where
  | start (name : String)
  | chars (s : String)
  | close (name : String)
deriving DecidableEq, Repr

/-- Parser state: the open-element stack (top first), the accumulated
character data `m_chardata`, and the output map `propdata`. -/
structure PSParserState where
  path : List String
  chardata : String
  propdata : List (String × String)
deriving DecidableEq, Repr

/-- One SAX event, as handled by the base parser (stack maintenance,
modelled from the spec) plus the `UPnPPropertysetParser` overrides:
character data is appended unless empty; on end-of-element the
accumulated data is trimmed, stored under the element name when the
immediate parent's name compares equal to "property", and cleared. -/
def psOnEvent (st : PSParserState) : XmlEv → PSParserState
  | .start n => { st with path := n :: st.path }
  | .chars s => if s = "" then st else { st with chardata := st.chardata ++ s }
  | .close n =>
    let parentname : String :=
      match st.path with
      | [_] => "root"
      | _ :: p :: _ => p
      | [] => "root"
    let trimmed := trimWs st.chardata
    let pd :=
      if dom_cmp_name_eq parentname "property" then mapSet st.propdata n trimmed
      else st.propdata
    { path := st.path.tail, chardata := "", propdata := pd }

/-- Run the parser over an event stream from the initial state. -/
def psRun (evs : List XmlEv) : PSParserState :=
  evs.foldl psOnEvent ⟨[], "", []⟩

/-- A leaf of a propertyset document: one variable element holding only
character data. -/
structure PropLeaf where
  tag : String
  text : String
deriving DecidableEq, Repr

/-- A child element of the root (in a well-formed propertyset, one
`property` wrapper) containing only leaf children. -/
structure PropElem where
  tag : String
  leaves : List PropLeaf
deriving DecidableEq, Repr

/-- A well-formed propertyset document: a root element whose children
are wrapper elements each holding leaf variable elements, with no stray
character data between elements. -/
structure PropertysetDoc where
  rootTag : String
  props : List PropElem
deriving DecidableEq, Repr

/-- Modelled from the spec: the tokenizer's event stream for a leaf;
element names are delivered as local-names. -/
def leafEvents (l : PropLeaf) : List XmlEv :=
  [.start (localPart l.tag), .chars l.text, .close (localPart l.tag)]

/-- Event stream of one wrapper element. -/
def propElemEvents (p : PropElem) : List XmlEv :=
  [XmlEv.start (localPart p.tag)] ++ (p.leaves.map leafEvents).flatten
    ++ [XmlEv.close (localPart p.tag)]

/-- Event stream of a whole propertyset document. -/
def docEvents (d : PropertysetDoc) : List XmlEv :=
  [XmlEv.start (localPart d.rootTag)] ++ (d.props.map propElemEvents).flatten
    ++ [XmlEv.close (localPart d.rootTag)]

/-- The property map the parser leaves in `propdata` for a document. -/
def runPropertysetParserOn (d : PropertysetDoc) : List (String × String) :=
  (psRun (docEvents d)).propdata

/-- The pairs one wrapper element contributes, in the spec's words: when
its local-name compares equal (case-insensitively) to "property", one
pair (child local-name, character data trimmed of leading and trailing
whitespace) per leaf child; nothing otherwise. -/
def propPairs (p : PropElem) : List (String × String) :=
  if dom_cmp_name_eq (localPart p.tag) "property" then
    p.leaves.map (fun l => (localPart l.tag, trimWs l.text))
  else []

/-- The extraction rule in the spec's words, over the whole document, in
document order. -/
def specPropertysetPairs (d : PropertysetDoc) : List (String × String) :=
  (d.props.map propPairs).flatten

/-- The net effect of one wrapper element on the parser's output map:
fold the element's extracted pairs into the map with last-wins
assignment. -/
def propStep (m : List (String × String)) (p : PropElem) :
    List (String × String) :=
  (propPairs p).foldl (fun acc kv => mapSet acc kv.1 kv.2) m

/-! ## Supporting lemmas -/

/-- After removing a SID from a subscription list, looking it up fails. -/
theorem findBySid_removeBySid (l : List ClientSubscription) (s : String) :
    findBySid (removeBySid l s) s = none := by
  induction l with
  | nil => rfl
  | cons e rest ih =>
    by_cases h : e.SID = s
    · simpa [removeBySid, h] using ih
    · simpa [removeBySid, h, findBySid] using ih

/-- An in-place update that preserves the SID commutes away under removal
of that SID. -/
theorem removeBySid_updateFirstBySid (l : List ClientSubscription) (s : String)
    (f : ClientSubscription → ClientSubscription)
    (hf : ∀ e, (f e).SID = e.SID) :
    removeBySid (updateFirstBySid l s f) s = removeBySid l s := by
  induction l with
  | nil => rfl
  | cons e rest ih =>
    by_cases h : e.SID = s
    · simp [updateFirstBySid, h, removeBySid, hf e]
    · simp [updateFirstBySid, h, removeBySid, ih]

/-- Finding by SID after an in-place update of the found entry succeeds
when the update preserves the SID. -/
theorem findBySid_updateFirstBySid (l : List ClientSubscription) (s : String)
    (f : ClientSubscription → ClientSubscription) (e : ClientSubscription)
    (hfind : findBySid l s = some e) (hf : (f e).SID = e.SID) :
    findBySid (updateFirstBySid l s f) s = some (f e) := by
  induction l with
  | nil => simp [findBySid] at hfind
  | cons a rest ih =>
    by_cases h : a.SID = s
    · simp only [findBySid, if_pos h] at hfind
      cases hfind
      simp [updateFirstBySid, h, findBySid, hf, h]
    · simp only [findBySid, if_neg h] at hfind
      simp [updateFirstBySid, h, findBySid, ih hfind]

/-- The embedded renewal always leaves a present handle state present. -/
theorem genaRenewSubscription_state_isSome (hi : Handle_Info) (in_sid : String)
    (reqTimeout urlParseCode : Int) (ifpFound : Bool) (curl : CurlOutcome)
    (schedCode eventId : Int) :
    ∃ hi', (genaRenewSubscription (some hi) in_sid reqTimeout urlParseCode
      ifpFound curl schedCode eventId).2 = some hi' := by
  simp only [genaRenewSubscription]
  repeat' split
  all_goals exact ⟨_, rfl⟩

/-! ## Claim theorems -/

/-- C4: for every call of the outbound subscribe/renew transport
(`gena_subscribe`, with the URL parsed and an interface found): a
transport-level curl failure returns UPNP_E_SOCKET_CONNECT; an HTTP
status other than 200 returns UPNP_E_SUBSCRIBE_UNACCEPTED; a 200 answer
missing the SID or TIMEOUT header returns UPNP_E_BAD_RESPONSE; and on
success the server-supplied SID and the seconds parsed from the TIMEOUT
header (UPNP_INFINITE for the infinite sentinel) are returned. -/
theorem C4_gena_subscribe_result_codes (reqTimeout status : Int)
    (headers : List (String × String)) (sidv : String) (t : Int) :
    ((gena_subscribe reqTimeout 0 true .fail).code = UPNP_E_SOCKET_CONNECT) ∧
    (status ≠ 200 →
      (gena_subscribe reqTimeout 0 true (.ok status headers)).code
        = UPNP_E_SUBSCRIBE_UNACCEPTED) ∧
    (hget headers "sid" = none ∨ hget headers "timeout" = none →
      (gena_subscribe reqTimeout 0 true (.ok 200 headers)).code
        = UPNP_E_BAD_RESPONSE) ∧
    (hget headers "sid" = some sidv → timeout_header_value headers = some t →
      gena_subscribe reqTimeout 0 true (.ok 200 headers)
        = ⟨UPNP_E_SUCCESS, sidv, t⟩) := by
  refine ⟨rfl, fun hs => ?_, fun hmiss => ?_, fun hsid htv => ?_⟩
  · simp [gena_subscribe, hs]
  · rcases hs : hget headers "sid" with _ | s <;>
      rcases ht : hget headers "timeout" with _ | u <;>
        simp_all [gena_subscribe]
  · have htmo : ∃ u, hget headers "timeout" = some u := by
      unfold timeout_header_value at htv
      rcases h : hget headers "timeout" with _ | u
      · rw [h] at htv; exact absurd htv (by simp)
      · exact ⟨u, rfl⟩
    rcases htmo with ⟨u, hu⟩
    simp [gena_subscribe, hsid, hu, htv]

/-- C4 witness: the four clauses at concrete inputs. -/
theorem C4_gena_subscribe_result_codes_witness :
    (gena_subscribe 300 0 true (.ok 500 [])).code = UPNP_E_SUBSCRIBE_UNACCEPTED ∧
    (gena_subscribe 300 0 true (.ok 200 [("sid", "uuid:a")])).code
      = UPNP_E_BAD_RESPONSE ∧
    gena_subscribe 300 0 true
        (.ok 200 [("sid", "uuid:a"), ("timeout", "Second-1800")])
      = ⟨UPNP_E_SUCCESS, "uuid:a", 1800⟩ :=
  ⟨(C4_gena_subscribe_result_codes 300 500 [] "" 0).2.1 (by decide),
   (C4_gena_subscribe_result_codes 300 200 [("sid", "uuid:a")] "" 0).2.2.1
     (Or.inr rfl),
   (C4_gena_subscribe_result_codes 300 200
       [("sid", "uuid:a"), ("timeout", "Second-1800")] "uuid:a" 1800).2.2.2
     rfl rfl⟩

/-- C5: the outgoing SUBSCRIBE request carries exactly one TIMEOUT header,
of the form `TIMEOUT: Second-<N>` with N = "infinite" when the requested
timeout is negative, N = the configured minimum when the request is
non-negative and below it, and N = the request itself otherwise. -/
theorem C5_subscribe_timeout_header (minSub t : Int)
    (renewal_sid cbUrl ua : String) :
    (gena_subscribe_headers minSub (some t) renewal_sid cbUrl ua).filter
        (fun p => p.1 == "TIMEOUT")
      = [("TIMEOUT", "Second-" ++
          (if t < 0 then "infinite"
           else if t < minSub then toString minSub
           else toString t))] := by
  by_cases h : renewal_sid = "" <;>
    simp [gena_subscribe_headers, subTimeoutToken, h]

/-- C6: with a subscription for S present, a first unsubscribe removes it
and returns success for every network outcome of the UNSUBSCRIBE
round-trip, and a second unsubscribe of S on the resulting state returns
GENA_E_BAD_SID. -/
theorem C6_double_unsubscribe (hi : Handle_Info) (in_sid : String)
    (net1 net2 : Int) (s : ClientSubscription)
    (hfind : findBySid hi.ClientSubList in_sid = some s) :
    genaUnSubscribe (some hi) in_sid net1
        = (GENA_SUCCESS, some ⟨removeBySid hi.ClientSubList in_sid⟩) ∧
    (genaUnSubscribe (genaUnSubscribe (some hi) in_sid net1).2 in_sid net2).1
        = GENA_E_BAD_SID := by
  have h1 : genaUnSubscribe (some hi) in_sid net1
      = (GENA_SUCCESS, some ⟨removeBySid hi.ClientSubList in_sid⟩) := by
    simp [genaUnSubscribe, hfind]
  refine ⟨h1, ?_⟩
  rw [h1]
  simp [genaUnSubscribe, findBySid_removeBySid]

/-- C6 witness: a concrete table where the first unsubscribe succeeds and
the second reports a bad SID. -/
theorem C6_double_unsubscribe_witness :
    genaUnSubscribe (some ⟨[⟨"uuid:a", "http://pub/evt", 3⟩]⟩) "uuid:a"
        UPNP_E_UNSUBSCRIBE_UNACCEPTED
      = (GENA_SUCCESS, some ⟨[]⟩) ∧
    (genaUnSubscribe
        (genaUnSubscribe (some ⟨[⟨"uuid:a", "http://pub/evt", 3⟩]⟩) "uuid:a"
          UPNP_E_UNSUBSCRIBE_UNACCEPTED).2 "uuid:a" 0).1 = GENA_E_BAD_SID :=
  C6_double_unsubscribe ⟨[⟨"uuid:a", "http://pub/evt", 3⟩]⟩ "uuid:a"
    UPNP_E_UNSUBSCRIBE_UNACCEPTED 0 ⟨"uuid:a", "http://pub/evt", 3⟩ rfl

/-- C3: when the renewal's HTTP round-trip fails after a successful table
lookup, the subscription with the original SID is removed from the table
and the transport error code is returned to the caller. -/
theorem C3_renew_transport_failure_removes_subscription (hi : Handle_Info)
    (in_sid : String) (reqTimeout : Int) (curl : CurlOutcome)
    (schedCode eventId : Int) (s : ClientSubscription)
    (hfind : findBySid hi.ClientSubList in_sid = some s)
    (hfail : (gena_subscribe reqTimeout 0 true curl).code ≠ UPNP_E_SUCCESS) :
    genaRenewSubscription (some hi) in_sid reqTimeout 0 true curl schedCode
        eventId
      = ((gena_subscribe reqTimeout 0 true curl).code,
         some ⟨removeBySid hi.ClientSubList in_sid⟩) := by
  simp only [genaRenewSubscription, hfind, if_pos hfail]
  rw [removeBySid_updateFirstBySid hi.ClientSubList in_sid
    (fun e => { e with renewEventId := -1 }) (fun e => rfl)]

/-- C3 witness: a concrete renewal whose transport fails removes the
entry and reports the socket-connect error. -/
theorem C3_renew_transport_failure_removes_subscription_witness :
    genaRenewSubscription (some ⟨[⟨"uuid:a", "http://pub/evt", 7⟩]⟩) "uuid:a"
        300 0 true .fail 0 9
      = ((gena_subscribe 300 0 true .fail).code,
         some ⟨removeBySid [⟨"uuid:a", "http://pub/evt", 7⟩] "uuid:a"⟩) :=
  C3_renew_transport_failure_removes_subscription
    ⟨[⟨"uuid:a", "http://pub/evt", 7⟩]⟩ "uuid:a" 300 .fail 0 9
    ⟨"uuid:a", "http://pub/evt", 7⟩ rfl (by decide)

/-- C9: a granted timeout equal to the infinite sentinel makes the
renewal scheduler return success without consulting the timer thread and
without touching the subscription (its renew event id stays as it was);
in particular a subscribe granted "infinite" leaves its new table entry
with renewEventId = -1 and returns success, for every scheduler
outcome. -/
theorem C9_infinite_timeout_schedules_nothing (schedCode eventId : Int)
    (sub : ClientSubscription) (hi : Handle_Info) (url : String)
    (reqTimeout : Int) (curl : CurlOutcome) :
    (ScheduleGenaAutoRenew UPNP_INFINITE schedCode eventId sub
        = (GENA_SUCCESS, sub)) ∧
    (reqTimeout < 0 →
      (gena_subscribe reqTimeout 0 true curl).code = UPNP_E_SUCCESS →
      (gena_subscribe reqTimeout 0 true curl).timeout = UPNP_INFINITE →
      genaSubscribe (some hi) url reqTimeout 0 true curl schedCode eventId
        = (GENA_SUCCESS,
           some ⟨⟨(gena_subscribe reqTimeout 0 true curl).sid, url, -1⟩
             :: hi.ClientSubList⟩,
           (gena_subscribe reqTimeout 0 true curl).sid)) := by
  constructor
  · simp [ScheduleGenaAutoRenew]
  · intro _ hok hinf
    simp only [genaSubscribe]
    rw [if_neg (by simp [hok])]
    rw [hinf]
    simp [ScheduleGenaAutoRenew]

/-- C9 witness: a subscribe requesting a negative timeout and granted
"Second-infinite" adds the entry with no renewal timer and succeeds even
though the scheduler would have failed. -/
theorem C9_infinite_timeout_schedules_nothing_witness :
    (ScheduleGenaAutoRenew UPNP_INFINITE (-5) 9 ⟨"uuid:a", "u", -1⟩
        = (GENA_SUCCESS, ⟨"uuid:a", "u", -1⟩)) ∧
    genaSubscribe (some ⟨[]⟩) "http://pub/evt" (-3) 0 true
        (.ok 200 [("sid", "uuid:a"), ("timeout", "Second-infinite")]) (-5) 9
      = (GENA_SUCCESS,
         some ⟨[⟨(gena_subscribe (-3) 0 true
             (.ok 200 [("sid", "uuid:a"), ("timeout", "Second-infinite")])).sid,
           "http://pub/evt", -1⟩]⟩,
         (gena_subscribe (-3) 0 true
             (.ok 200 [("sid", "uuid:a"), ("timeout", "Second-infinite")])).sid) :=
  ⟨(C9_infinite_timeout_schedules_nothing (-5) 9 ⟨"uuid:a", "u", -1⟩ ⟨[]⟩
      "http://pub/evt" (-3) .fail).1,
   (C9_infinite_timeout_schedules_nothing (-5) 9 ⟨"uuid:a", "u", -1⟩ ⟨[]⟩
      "http://pub/evt" (-3)
      (.ok 200 [("sid", "uuid:a"), ("timeout", "Second-infinite")])).2
     (by decide) rfl rfl⟩

/-- C10: when the SUBSCRIBE round-trip succeeds but the renewal timer
cannot be scheduled, `genaSubscribe` returns the scheduler's error code
while the new subscription stays in the table with renewEventId = -1 and
the out SID holds the granted SID; `genaRenewSubscription` in the same
situation instead returns the scheduler's code with the subscription
removed from the table. -/
theorem C10_subscribe_vs_renew_on_scheduler_failure (hi : Handle_Info)
    (url in_sid : String) (reqTimeout : Int) (curl : CurlOutcome)
    (schedCode eventId : Int) (s : ClientSubscription)
    (hok : (gena_subscribe reqTimeout 0 true curl).code = UPNP_E_SUCCESS)
    (hnotinf : (gena_subscribe reqTimeout 0 true curl).timeout ≠ UPNP_INFINITE)
    (hsched : schedCode ≠ UPNP_E_SUCCESS) :
    (genaSubscribe (some hi) url reqTimeout 0 true curl schedCode eventId
        = (schedCode,
           some ⟨⟨(gena_subscribe reqTimeout 0 true curl).sid, url, -1⟩
             :: hi.ClientSubList⟩,
           (gena_subscribe reqTimeout 0 true curl).sid)) ∧
    (findBySid hi.ClientSubList in_sid = some s →
      (genaRenewSubscription (some hi) in_sid reqTimeout 0 true curl schedCode
          eventId).1 = schedCode ∧
      ∀ hi', (genaRenewSubscription (some hi) in_sid reqTimeout 0 true curl
          schedCode eventId).2 = some hi' →
        findBySid hi'.ClientSubList
          (gena_subscribe reqTimeout 0 true curl).sid = none) := by
  constructor
  · simp only [genaSubscribe]
    rw [if_neg (by simp [hok])]
    simp [ScheduleGenaAutoRenew, if_neg hnotinf, if_pos hsched, hsched]
  · intro hfind
    have hfl1 : findBySid (updateFirstBySid hi.ClientSubList in_sid
        (fun e => { e with renewEventId := -1 })) in_sid
        = some { s with renewEventId := -1 } :=
      findBySid_updateFirstBySid _ _ _ _ hfind rfl
    have hres : genaRenewSubscription (some hi) in_sid reqTimeout 0 true curl
        schedCode eventId
        = (schedCode,
           some ⟨removeBySid
             (updateFirstBySid
               (updateFirstBySid hi.ClientSubList in_sid
                 (fun e => { e with renewEventId := -1 }))
               in_sid
               (fun _ => { s with
                 SID := (gena_subscribe reqTimeout 0 true curl).sid,
                 renewEventId := -1 }))
             (gena_subscribe reqTimeout 0 true curl).sid⟩) := by
      have hs0 : ¬ schedCode = (0 : Int) := by
        simpa [UPNP_E_SUCCESS] using hsched
      simp only [genaRenewSubscription, hfind, hfl1]
      rw [if_neg (by simp [hok])]
      simp [ScheduleGenaAutoRenew, hnotinf, hs0, GENA_SUCCESS, UPNP_E_SUCCESS]
    rw [hres]
    exact ⟨rfl, fun hi' h => by cases h; exact findBySid_removeBySid _ _⟩

/-- C10 witness: concrete scheduler failure after a granted SUBSCRIBE:
the subscribe keeps the entry, the renew drops it. -/
theorem C10_subscribe_vs_renew_on_scheduler_failure_witness :
    (genaSubscribe (some ⟨[⟨"uuid:a", "http://pub/evt", 7⟩]⟩) "http://pub/evt"
        300 0 true (.ok 200 [("sid", "uuid:b"), ("timeout", "Second-300")])
        (-5) 9
      = ((-5),
         some ⟨[⟨(gena_subscribe 300 0 true
             (.ok 200 [("sid", "uuid:b"), ("timeout", "Second-300")])).sid,
           "http://pub/evt", -1⟩, ⟨"uuid:a", "http://pub/evt", 7⟩]⟩,
         (gena_subscribe 300 0 true
             (.ok 200 [("sid", "uuid:b"), ("timeout", "Second-300")])).sid)) ∧
    (genaRenewSubscription (some ⟨[⟨"uuid:a", "http://pub/evt", 7⟩]⟩) "uuid:a"
        300 0 true (.ok 200 [("sid", "uuid:b"), ("timeout", "Second-300")])
        (-5) 9).1 = (-5) := by
  have h := C10_subscribe_vs_renew_on_scheduler_failure
    ⟨[⟨"uuid:a", "http://pub/evt", 7⟩]⟩ "http://pub/evt" "uuid:a" 300
    (.ok 200 [("sid", "uuid:b"), ("timeout", "Second-300")]) (-5) 9
    ⟨"uuid:a", "http://pub/evt", 7⟩ rfl (by decide) (by decide)
  exact ⟨h.1, (h.2 rfl).1⟩

/-- C8: the fired auto-renew job: with the margin compiled to zero it
makes a single SUBSCRIPTION_EXPIRED upcall with a success code and does
not renew (the state is untouched); with a nonzero margin it renews, and
swallows a BadSid/BadHandle result silently while any other failure code
produces a single AUTORENEWAL_FAILED upcall carrying that code. -/
theorem C8_autorenew_job_callback_policy (autoRenewTime : Int)
    (st : Option Handle_Info) (hi : Handle_Info) (sid : String)
    (timeout : Int) (curl : CurlOutcome) (schedCode eventId : Int) :
    (autoRenewTime = 0 → st = some hi →
      AutoRenewSubscriptionJobWorker_work autoRenewTime st sid timeout 0 true
          curl schedCode eventId
        = ⟨some (.UPNP_EVENT_SUBSCRIPTION_EXPIRED, UPNP_E_SUCCESS), st⟩) ∧
    (autoRenewTime ≠ 0 →
      ((genaRenewSubscription st sid timeout 0 true curl schedCode eventId).1
          = GENA_E_BAD_SID ∨
       (genaRenewSubscription st sid timeout 0 true curl schedCode eventId).1
          = GENA_E_BAD_HANDLE) →
      (AutoRenewSubscriptionJobWorker_work autoRenewTime st sid timeout 0 true
          curl schedCode eventId).callback = none) ∧
    (autoRenewTime ≠ 0 → st = some hi →
      (genaRenewSubscription st sid timeout 0 true curl schedCode eventId).1
          ≠ UPNP_E_SUCCESS →
      (genaRenewSubscription st sid timeout 0 true curl schedCode eventId).1
          ≠ GENA_E_BAD_SID →
      (genaRenewSubscription st sid timeout 0 true curl schedCode eventId).1
          ≠ GENA_E_BAD_HANDLE →
      (AutoRenewSubscriptionJobWorker_work autoRenewTime st sid timeout 0 true
          curl schedCode eventId).callback
        = some (.UPNP_EVENT_AUTORENEWAL_FAILED,
            (genaRenewSubscription st sid timeout 0 true curl schedCode
              eventId).1)) := by
  refine ⟨fun h0 hst => ?_, fun hne hbad => ?_, fun hne hst h1 h2 h3 => ?_⟩
  · subst h0 hst
    simp [AutoRenewSubscriptionJobWorker_work]
  · simp only [AutoRenewSubscriptionJobWorker_work]
    rw [if_neg hne]
    rcases hbad with h | h <;>
      · rw [if_neg (by simp [h, GENA_E_BAD_SID, GENA_E_BAD_HANDLE])]
  · subst hst
    simp only [AutoRenewSubscriptionJobWorker_work]
    rw [if_neg hne, if_pos ⟨h1, h2, h3⟩]
    obtain ⟨hi', hsome⟩ := genaRenewSubscription_state_isSome hi sid timeout 0
      true curl schedCode eventId
    rw [hsome]

/-- C8 witness: with margin zero the expiry upcall fires; with margin 10
and a failing transport the autorenewal-failed upcall carries the
socket-connect code. -/
theorem C8_autorenew_job_callback_policy_witness :
    (AutoRenewSubscriptionJobWorker_work 0
        (some ⟨[⟨"uuid:a", "u", 7⟩]⟩) "uuid:a" 300 0 true .fail 0 9
      = ⟨some (.UPNP_EVENT_SUBSCRIPTION_EXPIRED, UPNP_E_SUCCESS),
         some ⟨[⟨"uuid:a", "u", 7⟩]⟩⟩) ∧
    (AutoRenewSubscriptionJobWorker_work 10
        (some ⟨[⟨"uuid:a", "u", 7⟩]⟩) "uuid:a" 300 0 true .fail 0 9).callback
      = some (.UPNP_EVENT_AUTORENEWAL_FAILED,
          (genaRenewSubscription (some ⟨[⟨"uuid:a", "u", 7⟩]⟩) "uuid:a" 300 0
            true .fail 0 9).1) :=
  ⟨(C8_autorenew_job_callback_policy 0 (some ⟨[⟨"uuid:a", "u", 7⟩]⟩)
      ⟨[⟨"uuid:a", "u", 7⟩]⟩ "uuid:a" 300 .fail 0 9).1 rfl rfl,
   (C8_autorenew_job_callback_policy 10 (some ⟨[⟨"uuid:a", "u", 7⟩]⟩)
      ⟨[⟨"uuid:a", "u", 7⟩]⟩ "uuid:a" 300 .fail 0 9).2.2 (by decide) rfl
      (by decide) (by decide) (by decide)⟩

/-! Lemmas about the property-set parser run. -/

/-- Appending to the empty string is the identity. -/
theorem str_empty_append (s : String) : "" ++ s = s := by
  cases s
  rfl

/-- Effect of one leaf's events on a parser state with empty character
data and a nonempty stack. -/
theorem leafEvents_foldl (l : PropLeaf) (h : String) (t : List String)
    (pd : List (String × String)) :
    List.foldl psOnEvent ⟨h :: t, "", pd⟩ (leafEvents l)
      = ⟨h :: t, "",
         if dom_cmp_name_eq h "property" then
           mapSet pd (localPart l.tag) (trimWs l.text)
         else pd⟩ := by
  by_cases htxt : l.text = "" <;>
    simp [leafEvents, psOnEvent, htxt, str_empty_append]

/-- Effect of a run of leaves on a parser state with empty character
data: each leaf whose parent (the stack top) matches "property" assigns
its trimmed text under its local-name. -/
theorem propLeaves_foldl (leaves : List PropLeaf) (h : String)
    (t : List String) (pd : List (String × String)) :
    List.foldl psOnEvent ⟨h :: t, "", pd⟩ (leaves.map leafEvents).flatten
      = ⟨h :: t, "",
         if dom_cmp_name_eq h "property" then
           (leaves.map (fun l => (localPart l.tag, trimWs l.text))).foldl
             (fun acc kv => mapSet acc kv.1 kv.2) pd
         else pd⟩ := by
  induction leaves generalizing pd with
  | nil => by_cases hp : dom_cmp_name_eq h "property" <;> simp [hp]
  | cons l rest ih =>
    by_cases hp : dom_cmp_name_eq h "property" <;>
      simp [List.foldl_append, leafEvents_foldl, hp, ih]

/-- Effect of one wrapper element's events on a state whose stack holds
exactly the (non-"property") root. -/
theorem propElemEvents_foldl (p : PropElem) (r : String)
    (pd : List (String × String))
    (hr : dom_cmp_name_eq r "property" = false) :
    List.foldl psOnEvent ⟨[r], "", pd⟩ (propElemEvents p)
      = ⟨[r], "", propStep pd p⟩ := by
  unfold propElemEvents
  rw [List.foldl_append, List.foldl_append]
  rw [show List.foldl psOnEvent ⟨[r], "", pd⟩ [XmlEv.start (localPart p.tag)]
      = ⟨localPart p.tag :: [r], "", pd⟩ from rfl]
  rw [propLeaves_foldl]
  by_cases hp : dom_cmp_name_eq (localPart p.tag) "property" <;>
    simp [psOnEvent, hr, hp, propStep, propPairs]

/-- Effect of all wrapper elements on the root-only state. -/
theorem propElems_foldl (props : List PropElem) (r : String)
    (pd : List (String × String))
    (hr : dom_cmp_name_eq r "property" = false) :
    List.foldl psOnEvent ⟨[r], "", pd⟩ (props.map propElemEvents).flatten
      = ⟨[r], "", props.foldl propStep pd⟩ := by
  induction props generalizing pd with
  | nil => simp
  | cons p rest ih =>
    simp [List.foldl_append, propElemEvents_foldl _ _ _ hr, ih]

/-- The full parser run on a well-formed propertyset document whose root
is not itself named "property" computes the fold of `propStep` over the
wrapper elements. -/
theorem runPropertysetParserOn_eq (d : PropertysetDoc)
    (hroot : dom_cmp_name_eq (localPart d.rootTag) "property" = false) :
    runPropertysetParserOn d = d.props.foldl propStep [] := by
  unfold runPropertysetParserOn psRun docEvents
  rw [List.foldl_append, List.foldl_append]
  rw [show List.foldl psOnEvent ⟨[], "", []⟩
        [XmlEv.start (localPart d.rootTag)]
      = ⟨[localPart d.rootTag], "", []⟩ from rfl]
  rw [propElems_foldl _ _ _ hroot]
  simp [psOnEvent, show dom_cmp_name_eq "root" "property" = false from rfl]

/-! Lemmas about the last-wins map. -/

/-- Assignment then lookup on the association map. -/
theorem mapGet_mapSet (m : List (String × String)) (k v k' : String) :
    mapGet (mapSet m k v) k' = if k = k' then some v else mapGet m k' := by
  induction m with
  | nil => simp [mapSet, mapGet]
  | cons kv rest ih =>
    obtain ⟨k0, v0⟩ := kv
    by_cases h : k0 = k
    · subst h
      by_cases h' : k0 = k' <;> simp [mapSet, mapGet, h']
    · by_cases h' : k0 = k' <;> by_cases h'' : k = k' <;>
        simp_all [mapSet, mapGet]

/-- Folding a pair list into the map with `mapSet` realizes last-wins
lookup over those pairs, falling back to the original map. -/
theorem mapGet_foldl_mapSet (ps : List (String × String))
    (m0 : List (String × String)) (k : String) :
    mapGet (ps.foldl (fun m kv => mapSet m kv.1 kv.2) m0) k
      = match lastAssoc ps k with
        | some v => some v
        | none => mapGet m0 k := by
  induction ps generalizing m0 with
  | nil => simp [lastAssoc]
  | cons kv rest ih =>
    obtain ⟨k0, v0⟩ := kv
    simp only [List.foldl_cons, lastAssoc]
    rw [ih]
    cases hl : lastAssoc rest k with
    | some v => simp
    | none =>
      rw [mapGet_mapSet]
      by_cases h : k0 = k <;> simp [h]

/-- Last-wins lookup over an appended pair list prefers the suffix. -/
theorem lastAssoc_append (xs ys : List (String × String)) (k : String) :
    lastAssoc (xs ++ ys) k
      = match lastAssoc ys k with
        | some v => some v
        | none => lastAssoc xs k := by
  induction xs with
  | nil =>
    simp only [List.nil_append, lastAssoc]
    cases lastAssoc ys k <;> rfl
  | cons kv rest ih =>
    obtain ⟨k0, v0⟩ := kv
    simp only [List.cons_append, lastAssoc, List.append_eq]
    rw [ih]
    cases hys : lastAssoc ys k <;> cases hr : lastAssoc rest k <;>
      simp [hys, hr]

/-- Lookup after the whole fold is last-wins lookup over the extracted
document pairs. -/
theorem mapGet_props_foldl (props : List PropElem)
    (m0 : List (String × String)) (k : String) :
    mapGet (props.foldl propStep m0) k
      = match lastAssoc ((props.map propPairs).flatten) k with
        | some v => some v
        | none => mapGet m0 k := by
  induction props generalizing m0 with
  | nil => simp [lastAssoc]
  | cons p rest ih =>
    simp only [List.foldl_cons, List.map_cons, List.flatten_cons]
    rw [ih, lastAssoc_append]
    cases lastAssoc ((rest.map propPairs).flatten) k with
    | some v => simp
    | none =>
      simp only
      rw [propStep, mapGet_foldl_mapSet]

/-- Every entry of `mapSet m k v` either carries key `k` or the key of
an entry of `m`. -/
theorem mapSet_key_mem (m : List (String × String)) (k v : String) :
    ∀ x ∈ mapSet m k v, x.1 = k ∨ ∃ y ∈ m, x.1 = y.1 := by
  induction m with
  | nil =>
    intro x hx
    simp [mapSet] at hx
    simp [hx]
  | cons kv rest ih =>
    obtain ⟨k0, v0⟩ := kv
    intro x hx
    by_cases h : k0 = k
    · simp [mapSet, h] at hx
      rcases hx with rfl | hx
      · exact Or.inl rfl
      · exact Or.inr ⟨x, List.mem_cons_of_mem _ hx, rfl⟩
    · simp only [mapSet, if_neg h, List.mem_cons] at hx
      rcases hx with rfl | hx
      · exact Or.inr ⟨(k0, v0), List.mem_cons_self _ _, rfl⟩
      · rcases ih x hx with h1 | ⟨y, hy, h2⟩
        · exact Or.inl h1
        · exact Or.inr ⟨y, List.mem_cons_of_mem _ hy, h2⟩

/-- `mapSet` preserves key distinctness. -/
theorem mapSet_pairwiseKeys (m : List (String × String)) (k v : String)
    (hm : m.Pairwise (fun a b => a.1 ≠ b.1)) :
    (mapSet m k v).Pairwise (fun a b => a.1 ≠ b.1) := by
  induction m with
  | nil => simp [mapSet]
  | cons kv rest ih =>
    obtain ⟨k0, v0⟩ := kv
    rw [List.pairwise_cons] at hm
    obtain ⟨hhead, hrest⟩ := hm
    by_cases h : k0 = k
    · subst h
      simp only [mapSet, if_pos rfl]
      exact List.pairwise_cons.2 ⟨fun y hy => hhead y hy, hrest⟩
    · simp only [mapSet, if_neg h]
      refine List.pairwise_cons.2 ⟨?_, ih hrest⟩
      intro y hy
      rcases mapSet_key_mem rest k v y hy with h1 | ⟨z, hz, h2⟩
      · rw [h1]; exact h
      · rw [h2]; exact hhead z hz

/-- Folding pairs into a key-distinct map keeps keys distinct. -/
theorem foldl_mapSet_pairwiseKeys (ps : List (String × String))
    (m0 : List (String × String))
    (hm : m0.Pairwise (fun a b => a.1 ≠ b.1)) :
    (ps.foldl (fun m kv => mapSet m kv.1 kv.2) m0).Pairwise
      (fun a b => a.1 ≠ b.1) := by
  induction ps generalizing m0 with
  | nil => exact hm
  | cons kv rest ih => exact ih _ (mapSet_pairwiseKeys _ _ _ hm)

/-- C1: for an inbound NOTIFY that passes all header/body validation but
whose SID is not in the subscription table at the first lookup: with
parsed SEQ = 0 the lookup is retried against the state seen after taking
SubscribeLock, and if the subscription is then found the receiver
answers 200 and delivers the event; with SEQ ≠ 0, or when the retry
still fails (no client handle or still no entry), it answers 412 and
makes no upcall. -/
theorem C1_notify_unknown_sid_retry (headers : List (String × String))
    (postdata : String) (parseResult : Option (List (String × String)))
    (hi1 : Handle_Info) (st2 : Option Handle_Info) (sid seqv : String)
    (k : Int) (propset : List (String × String))
    (hsid : hget headers "sid" = some sid)
    (hseq : hget headers "seq" = some seqv)
    (hscan : scanSeqInt seqv = some k)
    (hnt : hget headers "nt" = some "upnp:event")
    (hnts : hget headers "nts" = some "upnp:propchange")
    (hbody : postdata ≠ "")
    (hparse : parseResult = some propset)
    (hmiss : findBySid hi1.ClientSubList sid = none) :
    (k = 0 → ∀ hi2 sub2, st2 = some hi2 →
      findBySid hi2.ClientSubList sid = some sub2 →
      gena_process_notification_event headers postdata true parseResult
          (some hi1) st2
        = ⟨HTTP_OK, some ⟨sub2.SID, k, propset⟩⟩) ∧
    (k ≠ 0 →
      gena_process_notification_event headers postdata true parseResult
          (some hi1) st2
        = ⟨HTTP_PRECONDITION_FAILED, none⟩) ∧
    (k = 0 →
      (st2 = none ∨ ∃ hi2, st2 = some hi2 ∧
        findBySid hi2.ClientSubList sid = none) →
      gena_process_notification_event headers postdata true parseResult
          (some hi1) st2
        = ⟨HTTP_PRECONDITION_FAILED, none⟩) := by
  subst hparse
  refine ⟨fun hk hi2 sub2 hst2 hfound => ?_, fun hk => ?_, fun hk hfail => ?_⟩
  · subst hst2 hk
    simp [gena_process_notification_event, hsid, hseq, hscan, hnt, hnts,
      hbody, hmiss, hfound]
  · simp [gena_process_notification_event, hsid, hseq, hscan, hnt, hnts,
      hbody, hmiss, hk]
  · subst hk
    rcases hfail with h | ⟨hi2, hst2, hnone⟩
    · subst h
      simp [gena_process_notification_event, hsid, hseq, hscan, hnt, hnts,
        hbody, hmiss]
    · subst hst2
      simp [gena_process_notification_event, hsid, hseq, hscan, hnt, hnts,
        hbody, hmiss, hnone]

/-- C1 witness: a seq-0 NOTIFY for a SID absent at first lookup but
present after the SubscribeLock retry is accepted and delivered; the
same NOTIFY with SEQ 7 is answered 412 with no upcall. -/
theorem C1_notify_unknown_sid_retry_witness :
    (gena_process_notification_event
        [("sid", "uuid:x"), ("seq", "0"), ("nt", "upnp:event"),
         ("nts", "upnp:propchange")] "b" true (some [("Var", "1")])
        (some ⟨[]⟩) (some ⟨[⟨"uuid:x", "u", -1⟩]⟩)
      = ⟨HTTP_OK, some ⟨"uuid:x", 0, [("Var", "1")]⟩⟩) ∧
    (gena_process_notification_event
        [("sid", "uuid:x"), ("seq", "7"), ("nt", "upnp:event"),
         ("nts", "upnp:propchange")] "b" true (some [("Var", "1")])
        (some ⟨[]⟩) (some ⟨[⟨"uuid:x", "u", -1⟩]⟩)
      = ⟨HTTP_PRECONDITION_FAILED, none⟩) :=
  ⟨(C1_notify_unknown_sid_retry
      [("sid", "uuid:x"), ("seq", "0"), ("nt", "upnp:event"),
       ("nts", "upnp:propchange")] "b" (some [("Var", "1")]) ⟨[]⟩
      (some ⟨[⟨"uuid:x", "u", -1⟩]⟩) "uuid:x" "0" 0 [("Var", "1")]
      rfl rfl rfl rfl rfl (by decide) rfl rfl).1 rfl ⟨[⟨"uuid:x", "u", -1⟩]⟩
      ⟨"uuid:x", "u", -1⟩ rfl rfl,
   (C1_notify_unknown_sid_retry
      [("sid", "uuid:x"), ("seq", "7"), ("nt", "upnp:event"),
       ("nts", "upnp:propchange")] "b" (some [("Var", "1")]) ⟨[]⟩
      (some ⟨[⟨"uuid:x", "u", -1⟩]⟩) "uuid:x" "7" 7 [("Var", "1")]
      rfl rfl (by decide) rfl rfl (by decide) rfl rfl).2.1 (by decide)⟩

/-- C2 counterexample: the claim requires every SEQ header that does not
parse as a NON-NEGATIVE decimal integer to be answered 400, but the
source accepts any `sscanf %d` integer: with `SEQ: -1` (and everything
else valid, the SID subscribed) the receiver answers 200 and delivers
the event with EventKey -1 instead of responding 400. -/
theorem C2_notify_validation_counterexample :
    scanSeqInt "-1" = some (-1) ∧
    gena_process_notification_event
        [("sid", "uuid:x"), ("seq", "-1"), ("nt", "upnp:event"),
         ("nts", "upnp:propchange")] "b" true (some [("Var", "1")])
        (some ⟨[⟨"uuid:x", "u", -1⟩]⟩) none
      = ⟨HTTP_OK, some ⟨"uuid:x", -1, [("Var", "1")]⟩⟩ ∧
    (gena_process_notification_event
        [("sid", "uuid:x"), ("seq", "-1"), ("nt", "upnp:event"),
         ("nts", "upnp:propchange")] "b" true (some [("Var", "1")])
        (some ⟨[⟨"uuid:x", "u", -1⟩]⟩) none).response ≠ HTTP_BAD_REQUEST :=
  ⟨rfl, rfl, by decide⟩

/-- C2 (amended): header/body validation of an inbound NOTIFY is applied
in order with the first failure winning: missing SID -> 412; SEQ missing
-> 400; SEQ present but not scanning as an `sscanf %d` decimal integer
(optional C whitespace, optional sign, digits) consuming the whole value
-> 400; NT or NTS missing -> 400; NT not "upnp:event" or NTS not
"upnp:propchange" -> 412; body not XML content-type or empty -> 400;
XML parse failure -> 400.  (The original claim demanded a NON-NEGATIVE
integer for SEQ; the source's `sscanf("%d%1c")` also accepts signed
values, see the counterexample.) -/
theorem C2_notify_validation_pipeline (headers : List (String × String))
    (postdata : String) (hasXmlCT : Bool)
    (parseResult : Option (List (String × String)))
    (st1 st2 : Option Handle_Info) :
    (hget headers "sid" = none →
      gena_process_notification_event headers postdata hasXmlCT parseResult
        st1 st2 = ⟨HTTP_PRECONDITION_FAILED, none⟩) ∧
    (∀ sid, hget headers "sid" = some sid → hget headers "seq" = none →
      gena_process_notification_event headers postdata hasXmlCT parseResult
        st1 st2 = ⟨HTTP_BAD_REQUEST, none⟩) ∧
    (∀ sid seqv, hget headers "sid" = some sid →
      hget headers "seq" = some seqv → scanSeqInt seqv = none →
      gena_process_notification_event headers postdata hasXmlCT parseResult
        st1 st2 = ⟨HTTP_BAD_REQUEST, none⟩) ∧
    (∀ sid seqv k, hget headers "sid" = some sid →
      hget headers "seq" = some seqv → scanSeqInt seqv = some k →
      (hget headers "nt" = none ∨ hget headers "nts" = none) →
      gena_process_notification_event headers postdata hasXmlCT parseResult
        st1 st2 = ⟨HTTP_BAD_REQUEST, none⟩) ∧
    (∀ sid seqv k ntv ntsv, hget headers "sid" = some sid →
      hget headers "seq" = some seqv → scanSeqInt seqv = some k →
      hget headers "nt" = some ntv → hget headers "nts" = some ntsv →
      (ntv ≠ "upnp:event" ∨ ntsv ≠ "upnp:propchange") →
      gena_process_notification_event headers postdata hasXmlCT parseResult
        st1 st2 = ⟨HTTP_PRECONDITION_FAILED, none⟩) ∧
    (∀ sid seqv k, hget headers "sid" = some sid →
      hget headers "seq" = some seqv → scanSeqInt seqv = some k →
      hget headers "nt" = some "upnp:event" →
      hget headers "nts" = some "upnp:propchange" →
      (hasXmlCT = false ∨ postdata = "") →
      gena_process_notification_event headers postdata hasXmlCT parseResult
        st1 st2 = ⟨HTTP_BAD_REQUEST, none⟩) ∧
    (∀ sid seqv k, hget headers "sid" = some sid →
      hget headers "seq" = some seqv → scanSeqInt seqv = some k →
      hget headers "nt" = some "upnp:event" →
      hget headers "nts" = some "upnp:propchange" →
      hasXmlCT = true → postdata ≠ "" → parseResult = none →
      gena_process_notification_event headers postdata hasXmlCT parseResult
        st1 st2 = ⟨HTTP_BAD_REQUEST, none⟩) := by
  refine ⟨fun h1 => ?_, fun sid h1 h2 => ?_, fun sid seqv h1 h2 h3 => ?_,
    fun sid seqv k h1 h2 h3 h4 => ?_, fun sid seqv k ntv ntsv h1 h2 h3 h4 h5 h6 => ?_,
    fun sid seqv k h1 h2 h3 h4 h5 h6 => ?_,
    fun sid seqv k h1 h2 h3 h4 h5 h6 h7 h8 => ?_⟩
  · simp [gena_process_notification_event, h1]
  · simp [gena_process_notification_event, h1, h2]
  · simp [gena_process_notification_event, h1, h2, h3]
  · rcases h4 with h | h
    · rcases hnts : hget headers "nts" with _ | v <;>
        simp [gena_process_notification_event, h1, h2, h3, h, hnts]
    · rcases hnt : hget headers "nt" with _ | v <;>
        simp [gena_process_notification_event, h1, h2, h3, h, hnt]
  · simp [gena_process_notification_event, h1, h2, h3, h4, h5, h6]
  · rcases h6 with h | h <;>
      simp [gena_process_notification_event, h1, h2, h3, h4, h5, h]
  · subst h6 h8
    simp [gena_process_notification_event, h1, h2, h3, h4, h5, h7]

/-- C2 witness for the amended pipeline: each failing stage at a concrete
transaction. -/
theorem C2_notify_validation_pipeline_witness :
    (gena_process_notification_event [("seq", "0")] "b" true none none none
      = ⟨HTTP_PRECONDITION_FAILED, none⟩) ∧
    (gena_process_notification_event [("sid", "uuid:x")] "b" true none none
      none = ⟨HTTP_BAD_REQUEST, none⟩) ∧
    (gena_process_notification_event [("sid", "uuid:x"), ("seq", "3x")] "b"
      true none none none = ⟨HTTP_BAD_REQUEST, none⟩) ∧
    (gena_process_notification_event [("sid", "uuid:x"), ("seq", "0")] "b"
      true none none none = ⟨HTTP_BAD_REQUEST, none⟩) ∧
    (gena_process_notification_event
      [("sid", "uuid:x"), ("seq", "0"), ("nt", "upnp:event"),
       ("nts", "upnp:other")] "b" true none none none
      = ⟨HTTP_PRECONDITION_FAILED, none⟩) ∧
    (gena_process_notification_event
      [("sid", "uuid:x"), ("seq", "0"), ("nt", "upnp:event"),
       ("nts", "upnp:propchange")] "" true none none none
      = ⟨HTTP_BAD_REQUEST, none⟩) ∧
    (gena_process_notification_event
      [("sid", "uuid:x"), ("seq", "0"), ("nt", "upnp:event"),
       ("nts", "upnp:propchange")] "b" true none none none
      = ⟨HTTP_BAD_REQUEST, none⟩) := by
  have h := fun hs ps xc pr s1 s2 =>
    C2_notify_validation_pipeline hs ps xc pr s1 s2
  refine ⟨(h _ _ _ _ _ _).1 rfl,
    (h _ _ _ _ _ _).2.1 "uuid:x" rfl rfl,
    (h _ _ _ _ _ _).2.2.1 "uuid:x" "3x" rfl rfl (by decide),
    (h _ _ _ _ _ _).2.2.2.1 "uuid:x" "0" 0 rfl rfl rfl (Or.inl rfl),
    (h _ _ _ _ _ _).2.2.2.2.1 "uuid:x" "0" 0 "upnp:event" "upnp:other" rfl rfl
      rfl rfl rfl (Or.inr (by decide)),
    (h _ _ _ _ _ _).2.2.2.2.2.1 "uuid:x" "0" 0 rfl rfl rfl rfl rfl
      (Or.inr rfl),
    (h _ _ _ _ _ _).2.2.2.2.2.2 "uuid:x" "0" 0 rfl rfl rfl rfl rfl rfl
      (by decide) rfl⟩

/-- C7: for every well-formed propertyset document (root not itself
named "property"), the parser's output map holds exactly one entry per
variable name among the elements whose immediate parent's local-name
equals "property" case-insensitively (keys pairwise distinct), keyed by
the child's local-name, with value the character data trimmed of leading
and trailing whitespace, and lookups agree with the last occurrence of
each name in document order (duplicates: last one wins). -/
theorem C7_propertyset_extraction (d : PropertysetDoc)
    (hroot : dom_cmp_name_eq (localPart d.rootTag) "property" = false) :
    (∀ k, mapGet (runPropertysetParserOn d) k
        = lastAssoc (specPropertysetPairs d) k) ∧
    (runPropertysetParserOn d).Pairwise (fun a b => a.1 ≠ b.1) := by
  have hrun := runPropertysetParserOn_eq d hroot
  constructor
  · intro k
    rw [hrun, mapGet_props_foldl]
    unfold specPropertysetPairs
    cases h : lastAssoc ((d.props.map propPairs).flatten) k <;>
      simp [h, mapGet]
  · rw [hrun]
    have hfold : ∀ (props : List PropElem) (m0 : List (String × String)),
        m0.Pairwise (fun a b => a.1 ≠ b.1) →
        (props.foldl propStep m0).Pairwise (fun a b => a.1 ≠ b.1) := by
      intro props
      induction props with
      | nil => exact fun m0 hm => hm
      | cons p rest ih =>
        intro m0 hm
        exact ih _ (by rw [propStep]; exact foldl_mapSet_pairwiseKeys _ _ hm)
    exact hfold d.props [] (by simp)

/-- C7 witness: a concrete two-property document with a duplicated
variable name, where the parser output agrees with the spec's last-wins
extraction. -/
theorem C7_propertyset_extraction_witness :
    mapGet (runPropertysetParserOn
        ⟨"e:propertyset",
         [⟨"e:property", [⟨"Foo", " 1 "⟩, ⟨"n:Bar", "x"⟩]⟩,
          ⟨"e:PROPERTY", [⟨"Foo", "2"⟩]⟩]⟩) "Foo"
      = lastAssoc (specPropertysetPairs
        ⟨"e:propertyset",
         [⟨"e:property", [⟨"Foo", " 1 "⟩, ⟨"n:Bar", "x"⟩]⟩,
          ⟨"e:PROPERTY", [⟨"Foo", "2"⟩]⟩]⟩) "Foo" :=
  (C7_propertyset_extraction
    ⟨"e:propertyset",
     [⟨"e:property", [⟨"Foo", " 1 "⟩, ⟨"n:Bar", "x"⟩]⟩,
      ⟨"e:PROPERTY", [⟨"Foo", "2"⟩]⟩]⟩ rfl).1 "Foo"

end NpupnpGena
